import Mathlib

/-!
# Content-enrichment pipeline of miniflux (`reader/processor`, `reader/mercury`)

Shallow embedding of `processor.ProcessFeedEntries`, `processor.ProcessEntryWebPage`
and `mercury.Fetch`.

Modelling conventions.

* The packages `storage`, `scraper`, `rewrite`, `sanitizer`, `http/client`, `url`,
  `logger` and `encoding/json` are collaborators of the embedded functions; each of
  their entry points is a field of `Env`, a function of its arguments.
* Every call of a collaborator with an observable effect (storage lookup, scraper
  fetch, HTTP GET, log line) is appended to a trace of `Event`s, in program order.
  "The fetcher is not invoked" is a statement about that trace.
* A Go `error` is a value carrying its message; `nil` is `none`.
* `storage.UserByID` returns a pointer and an error.  Both are kept: the pointer may
  be `nil` (`none`) and the error may be `nil` (`none`), independently.  Reading a
  field through a `nil` pointer is a run-time panic, which ends the run.
* Entries are mutated in place in Go; the embedding returns the entry as it stands
  when the run ends (also when it ends in a panic).
-/

namespace Miniflux

/-- Go `error`: `msg` is what `Error()` returns and what the `%v` verb prints. -/
structure GoError where
  msg : String
deriving DecidableEq

/-- Record `model.User`, restricted to the field read by the processor. -/
structure User where
  MercuryAPIURL : String
deriving DecidableEq

/-- Record `model.Feed`, restricted to the fields read by the processor.  The entries
of the feed (`feed.Entries`) are passed next to the feed, since `Entry` refers back to
its feed. -/
structure Feed where
  ID : Int
  UserID : Int
  Crawler : Bool
  UseMercury : Bool
  ScraperRules : String
  RewriteRules : String
  UserAgent : String
deriving DecidableEq

/-- Record `model.Entry`, restricted to the fields read or written by the processor. -/
structure Entry where
  UserID : Int
  URL : String
  Content : String
  Feed : Feed
deriving DecidableEq

/-- Struct `apiResponse` of `reader/mercury/mercury.go`. -/
structure apiResponse where
  Title : String
  Author : String
  PubDate : String
  Content : String
  URL : String
deriving DecidableEq

/-- Observable calls, in program order. -/
inductive Event where
  | EntryURLExists (feedID : Int) (url : String)
  | UserByID (userID : Int)
  | scraperFetch (url rules userAgent : String)
  | clientGet (url : String)
  | loggerError (line : String)
deriving DecidableEq

/-- The collaborators of the processor and of the remote fetcher. -/
structure Env where
  /-- Collaborator `store.EntryURLExists(feedID, entryURL)`. -/
  EntryURLExists : Int → String → Bool
  /-- Collaborator `store.UserByID(userID)`: the returned pointer and the returned error. -/
  UserByID : Int → Option User × Option GoError
  /-- Collaborator `scraper.Fetch(websiteURL, rules, userAgent)`: content and error. -/
  scraperFetch : String → String → String → String × Option GoError
  /-- Collaborator `rewrite.Rewriter(entryURL, entryContent, customRewriteRules)`. -/
  Rewriter : String → String → String → String
  /-- Collaborator `sanitizer.Sanitize(baseURL, input)`. -/
  Sanitize : String → String → String
  /-- Collaborator `url.AddQueryString(ur, params)`; the map is given as its bindings. -/
  AddQueryString : String → List (String × String) → String
  /-- Collaborator `client.New(url).Get()`: the response body, or the error. -/
  clientGet : String → Except GoError String
  /-- Collaborator `json.NewDecoder(body).Decode(&apiResp)`: the filled struct, or the error. -/
  jsonDecode : String → Except GoError apiResponse
  /-- Verb `%q` of package `fmt` applied to a string (`strconv.Quote`). -/
  quote : String → String

/-- What a call of `mercury.Fetch` leaves behind: its trace and its two results. -/
structure FetchRun where
  trace : List Event
  content : String
  err : Option GoError
deriving DecidableEq

/-- Function `Fetch` of `reader/mercury/mercury.go`. -/
def mercury.Fetch (env : Env) (entryURL mercury_api : String) : FetchRun :=
  let target := env.AddQueryString mercury_api [("url", entryURL)]
  match env.clientGet target with
  | .error err =>
    ⟨[.clientGet target], "",
      some ⟨"mercury: unable to fetch " ++ entryURL ++ " error: " ++ err.msg⟩⟩
  | .ok body =>
    match env.jsonDecode body with
    | .error err =>
      ⟨[.clientGet target], "",
        some ⟨"wallabag: unable to decode token response: " ++ err.msg⟩⟩
    | .ok apiResp => ⟨[.clientGet target], apiResp.Content, none⟩

/-- State after (part of) one iteration of the loop of `ProcessFeedEntries`. -/
structure EntryRun where
  trace : List Event
  entry : Entry
  panicked : Bool
deriving DecidableEq

/-- Lines 21-31 of `processor.go`: the `if feed.Crawler` block of the loop body. -/
def crawlerStage (env : Env) (feed : Feed) (entry : Entry) : EntryRun :=
  if feed.Crawler then
    if env.EntryURLExists feed.ID entry.URL = false then
      match env.scraperFetch entry.URL feed.ScraperRules feed.UserAgent with
      | (_, some err) =>
        ⟨[.EntryURLExists feed.ID entry.URL,
          .scraperFetch entry.URL feed.ScraperRules feed.UserAgent,
          .loggerError ("[Filter] Unable to crawl this entry: " ++ env.quote entry.URL
            ++ " => " ++ err.msg)], entry, false⟩
      | (content, none) =>
        if content ≠ "" then
          ⟨[.EntryURLExists feed.ID entry.URL,
            .scraperFetch entry.URL feed.ScraperRules feed.UserAgent],
            { entry with Content := content }, false⟩
        else
          ⟨[.EntryURLExists feed.ID entry.URL,
            .scraperFetch entry.URL feed.ScraperRules feed.UserAgent], entry, false⟩
    else ⟨[.EntryURLExists feed.ID entry.URL], entry, false⟩
  else ⟨[], entry, false⟩

/-- Lines 33-46 of `processor.go`: the `if feed.UseMercury` block of the loop body.
The condition of line 36 is `err != nil && user.MercuryAPIURL != ""`: its right operand
is evaluated only when `err` is not `nil`, and then reads a field through `user`. -/
def mercuryStage (env : Env) (feed : Feed) (entry : Entry) : EntryRun :=
  if feed.UseMercury then
    if env.EntryURLExists feed.ID entry.URL = false then
      match env.UserByID feed.UserID with
      | (_, none) =>
        ⟨[.EntryURLExists feed.ID entry.URL, .UserByID feed.UserID], entry, false⟩
      | (none, some _) =>
        ⟨[.EntryURLExists feed.ID entry.URL, .UserByID feed.UserID], entry, true⟩
      | (some user, some _) =>
        if user.MercuryAPIURL ≠ "" then
          let r := mercury.Fetch env entry.URL user.MercuryAPIURL
          match r.err with
          | some err =>
            ⟨[.EntryURLExists feed.ID entry.URL, .UserByID feed.UserID] ++ r.trace ++
              [.loggerError ("[Merucry] Unable to crawl this entry: " ++ env.quote entry.URL
                ++ " => " ++ err.msg)], entry, false⟩
          | none =>
            if r.content ≠ "" then
              ⟨[.EntryURLExists feed.ID entry.URL, .UserByID feed.UserID] ++ r.trace,
                { entry with Content := r.content }, false⟩
            else
              ⟨[.EntryURLExists feed.ID entry.URL, .UserByID feed.UserID] ++ r.trace,
                entry, false⟩
        else ⟨[.EntryURLExists feed.ID entry.URL, .UserByID feed.UserID], entry, false⟩
    else ⟨[.EntryURLExists feed.ID entry.URL], entry, false⟩
  else ⟨[], entry, false⟩

/-- Lines 21-51 of `processor.go`: one iteration of the loop of `ProcessFeedEntries`. -/
def processEntry (env : Env) (feed : Feed) (entry : Entry) : EntryRun :=
  let c := crawlerStage env feed entry
  let m := mercuryStage env feed c.entry
  if m.panicked then ⟨c.trace ++ m.trace, m.entry, true⟩
  else
    let rewritten := env.Rewriter m.entry.URL m.entry.Content feed.RewriteRules
    ⟨c.trace ++ m.trace,
      { m.entry with Content := env.Sanitize m.entry.URL rewritten }, false⟩

/-- What a call of `ProcessFeedEntries` leaves behind: the trace, the entries of the
feed as they stand, and whether the run ended in a panic. -/
structure BatchRun where
  trace : List Event
  entries : List Entry
  panicked : Bool
deriving DecidableEq

/-- Function `ProcessFeedEntries` of `reader/processor/processor.go`; the second list
argument is `feed.Entries`. -/
def ProcessFeedEntries (env : Env) (feed : Feed) : List Entry → BatchRun
  | [] => ⟨[], [], false⟩
  | entry :: rest =>
    let r := processEntry env feed entry
    if r.panicked then ⟨r.trace, r.entry :: rest, true⟩
    else
      let k := ProcessFeedEntries env feed rest
      ⟨r.trace ++ k.trace, r.entry :: k.entries, k.panicked⟩

/-- How a call of `ProcessEntryWebPage` ends: it returns its `error` result, or panics. -/
inductive Outcome where
  | returned (err : Option GoError)
  | panicked
deriving DecidableEq

/-- What a call of `ProcessEntryWebPage` leaves behind. -/
structure WebPageRun where
  trace : List Event
  entry : Entry
  outcome : Outcome
deriving DecidableEq

/-- Function `ProcessEntryWebPage` of `reader/processor/processor.go`. -/
def ProcessEntryWebPage (env : Env) (entry : Entry) : WebPageRun :=
  if entry.Feed.UseMercury then
    match env.UserByID entry.UserID with
    | (_, some err) =>
      ⟨[.UserByID entry.UserID], entry,
        .returned (some ⟨"[Merucry] Unable to crawl this entry: " ++ env.quote entry.URL
          ++ " => " ++ err.msg⟩)⟩
    | (none, none) => ⟨[.UserByID entry.UserID], entry, .panicked⟩
    | (some user, none) =>
      if user.MercuryAPIURL = "" then
        ⟨[.UserByID entry.UserID], entry,
          .returned (some ⟨"[Merucry] Unable to crawl this entry: " ++ env.quote entry.URL
            ++ " => " ++ "API URL NOT SET"⟩)⟩
      else
        let r := mercury.Fetch env entry.URL user.MercuryAPIURL
        match r.err with
        | some err => ⟨[.UserByID entry.UserID] ++ r.trace, entry, .returned (some err)⟩
        | none =>
          if r.content ≠ "" then
            ⟨[.UserByID entry.UserID] ++ r.trace, { entry with Content := r.content },
              .returned none⟩
          else ⟨[.UserByID entry.UserID] ++ r.trace, entry, .returned none⟩
  else
    match env.scraperFetch entry.URL entry.Feed.ScraperRules entry.Feed.UserAgent with
    | (_, some err) =>
      ⟨[.scraperFetch entry.URL entry.Feed.ScraperRules entry.Feed.UserAgent], entry,
        .returned (some err)⟩
    | (content, none) =>
      let rewritten := env.Rewriter entry.URL content entry.Feed.RewriteRules
      let sanitized := env.Sanitize entry.URL rewritten
      if sanitized ≠ "" then
        ⟨[.scraperFetch entry.URL entry.Feed.ScraperRules entry.Feed.UserAgent],
          { entry with Content := sanitized }, .returned none⟩
      else
        ⟨[.scraperFetch entry.URL entry.Feed.ScraperRules entry.Feed.UserAgent], entry,
          .returned none⟩

/-! ## Concrete collaborators, used to evaluate the functions on explicit inputs -/

/-- A rewriter for feeds without rewrite rules: the content passes unchanged. -/
def plainRewriter (_entryURL entryContent _customRewriteRules : String) : String :=
  entryContent

/-- A sanitizer that drops a document made of one script element and lets every other
document pass. -/
def scriptSanitize (_baseURL input : String) : String :=
  if input = "<script>alert(1)</script>" then "" else input

/-- A query-string builder: `ur?k=v&k=v`. -/
def plainQueryString (ur : String) (params : List (String × String)) : String :=
  ur ++ "?" ++ String.intercalate "&" (params.map fun p => p.1 ++ "=" ++ p.2)

/-- A storage and network in which no entry URL is stored yet, the user lookup succeeds
with the endpoint `http://api.example/parser`, the scraper finds nothing and the remote
API answers with the content `<p>hi</p>`. -/
def exampleEnv : Env where
  EntryURLExists := fun _ _ => false
  UserByID := fun _ => (some ⟨"http://api.example/parser"⟩, none)
  scraperFetch := fun _ _ _ => ("", none)
  Rewriter := plainRewriter
  Sanitize := scriptSanitize
  AddQueryString := plainQueryString
  clientGet := fun _ => .ok "body"
  jsonDecode := fun _ => .ok ⟨"", "", "", "<p>hi</p>", ""⟩
  quote := fun s => "\"" ++ s ++ "\""

/-- A feed with the crawler disabled and remote enrichment enabled, without rules. -/
def remoteFeed : Feed :=
  ⟨1, 7, false, true, "", "", ""⟩

/-- A feed with the crawler enabled and remote enrichment disabled, without rules. -/
def crawlerFeed : Feed :=
  ⟨1, 7, true, false, "", "", ""⟩

/-- A feed with both strategies enabled, without rules. -/
def bothFeed : Feed :=
  ⟨1, 7, true, true, "", "", ""⟩

/-- A feed with both strategies disabled, without rules. -/
def plainFeed : Feed :=
  ⟨1, 7, false, false, "", "", ""⟩

/-- Entry `http://site/a` of `remoteFeed`, with the summary taken from the feed source. -/
def entryA : Entry :=
  ⟨7, "http://site/a", "summary", remoteFeed⟩

/-- Entry `http://site/b` of `remoteFeed`. -/
def entryB : Entry :=
  ⟨7, "http://site/b", "other", remoteFeed⟩

/-- Entry `http://site/s` of `remoteFeed` whose content from the feed source is a script. -/
def entryScript : Entry :=
  ⟨7, "http://site/s", "<script>alert(1)</script>", remoteFeed⟩

/-- Entry `http://site/a` of `crawlerFeed`. -/
def entryC : Entry :=
  ⟨7, "http://site/a", "summary", crawlerFeed⟩

/-- Variant of `exampleEnv`: the user lookup fails and returns a `nil` user. -/
def lookupFailsEnv : Env :=
  { exampleEnv with UserByID := fun _ => (none, some ⟨"unable to fetch user"⟩) }

/-- Variant of `exampleEnv`: the user lookup returns a user with an endpoint together
with a non-`nil` error. -/
def lookupUserAndErrorEnv : Env :=
  { exampleEnv with
    UserByID := fun _ => (some ⟨"http://api.example/parser"⟩, some ⟨"unable to fetch user"⟩) }

/-- Variant of `exampleEnv`: the user has no endpoint. -/
def noEndpointEnv : Env :=
  { exampleEnv with UserByID := fun _ => (some ⟨""⟩, none) }

/-- Variant of `exampleEnv`: the remote API answers with a script as content. -/
def remoteScriptEnv : Env :=
  { exampleEnv with jsonDecode := fun _ => .ok ⟨"", "", "", "<script>alert(1)</script>", ""⟩ }

/-- Variant of `exampleEnv`: the remote API answers without content. -/
def remoteEmptyEnv : Env :=
  { exampleEnv with jsonDecode := fun _ => .ok ⟨"t", "a", "", "", ""⟩ }

/-- Variant of `exampleEnv`: the scraper extracts a script. -/
def scraperScriptEnv : Env :=
  { exampleEnv with scraperFetch := fun _ _ _ => ("<script>alert(1)</script>", none) }

/-- Variant of `exampleEnv`: the scraper extracts `<p>full</p>`. -/
def scraperFullEnv : Env :=
  { exampleEnv with scraperFetch := fun _ _ _ => ("<p>full</p>", none) }

/-- Variant of `lookupFailsEnv`: the scraper fails as well, and `http://site/s` is the
one entry URL already stored. -/
def scraperAndLookupFailEnv : Env :=
  { lookupFailsEnv with
    EntryURLExists := fun _ url => decide (url = "http://site/s")
    scraperFetch := fun _ _ _ => ("", some ⟨"scraper: timeout"⟩) }

/-- Variant of `exampleEnv`: every entry URL is already stored. -/
def storedEnv : Env :=
  { exampleEnv with EntryURLExists := fun _ _ => true }

/-- Variant of `lookupFailsEnv`: `http://site/s` is the one entry URL already stored. -/
def gatedLookupFailsEnv : Env :=
  { lookupFailsEnv with EntryURLExists := fun _ url => decide (url = "http://site/s") }

/-- Variant of `exampleEnv`: the GET fails. -/
def getFailsEnv : Env :=
  { exampleEnv with clientGet := fun _ => .error ⟨"connection refused"⟩ }

/-- Variant of `exampleEnv`: the GET succeeds and the body does not decode. -/
def decodeFailsEnv : Env :=
  { exampleEnv with jsonDecode := fun _ => .error ⟨"unexpected EOF"⟩ }

/-- Variant of `exampleEnv`: the scraper fails. -/
def scraperFailsEnv : Env :=
  { exampleEnv with scraperFetch := fun _ _ _ => ("", some ⟨"scraper: timeout"⟩) }

/-- Variant of `lookupUserAndErrorEnv`: the scraper extracts `<p>full</p>`. -/
def overrideEnv : Env :=
  { lookupUserAndErrorEnv with scraperFetch := fun _ _ _ => ("<p>full</p>", none) }

/-! ## Shared lemmas on the loop body and on the loop -/

theorem crawlerStage_panicked (env : Env) (feed : Feed) (entry : Entry) :
    (crawlerStage env feed entry).panicked = false := by
  unfold crawlerStage
  repeat' split
  all_goals rfl

theorem crawlerStage_URL (env : Env) (feed : Feed) (entry : Entry) :
    (crawlerStage env feed entry).entry.URL = entry.URL := by
  unfold crawlerStage
  repeat' split
  all_goals rfl

theorem mercuryStage_URL (env : Env) (feed : Feed) (entry : Entry) :
    (mercuryStage env feed entry).entry.URL = entry.URL := by
  unfold mercuryStage
  dsimp only
  repeat' split
  all_goals rfl

theorem crawlerStage_off (env : Env) (feed : Feed) (entry : Entry)
    (h : feed.Crawler = false) : crawlerStage env feed entry = ⟨[], entry, false⟩ := by
  simp [crawlerStage, h]

theorem mercuryStage_off (env : Env) (feed : Feed) (entry : Entry)
    (h : feed.UseMercury = false) : mercuryStage env feed entry = ⟨[], entry, false⟩ := by
  simp [mercuryStage, h]

theorem crawlerStage_stored (env : Env) (feed : Feed) (entry : Entry)
    (h : env.EntryURLExists feed.ID entry.URL = true) :
    crawlerStage env feed entry =
      ⟨if feed.Crawler then [.EntryURLExists feed.ID entry.URL] else [], entry, false⟩ := by
  unfold crawlerStage
  simp [h]
  split <;> rfl

theorem mercuryStage_stored (env : Env) (feed : Feed) (entry : Entry)
    (h : env.EntryURLExists feed.ID entry.URL = true) :
    mercuryStage env feed entry =
      ⟨if feed.UseMercury then [.EntryURLExists feed.ID entry.URL] else [], entry, false⟩ := by
  unfold mercuryStage
  simp [h]
  split <;> rfl

/-- The loop over `pre ++ rest` runs the loop over `rest` once the run over `pre` has
ended without a panic. -/
theorem ProcessFeedEntries_append (env : Env) (feed : Feed) (pre rest : List Entry)
    (h : (ProcessFeedEntries env feed pre).panicked = false) :
    ProcessFeedEntries env feed (pre ++ rest) =
      ⟨(ProcessFeedEntries env feed pre).trace ++ (ProcessFeedEntries env feed rest).trace,
        (ProcessFeedEntries env feed pre).entries ++ (ProcessFeedEntries env feed rest).entries,
        (ProcessFeedEntries env feed rest).panicked⟩ := by
  induction pre with
  | nil => simp [ProcessFeedEntries]
  | cons e es ih =>
    by_cases hp : (processEntry env feed e).panicked = true
    · simp [ProcessFeedEntries, hp] at h
    · simp only [ProcessFeedEntries, hp] at h
      simp at h
      simp [ProcessFeedEntries, hp, ih h]

/-- The loop neither drops nor adds entries. -/
theorem ProcessFeedEntries_length (env : Env) (feed : Feed) (entries : List Entry) :
    (ProcessFeedEntries env feed entries).entries.length = entries.length := by
  induction entries with
  | nil => simp [ProcessFeedEntries]
  | cons e es ih =>
    by_cases hp : (processEntry env feed e).panicked = true
    · simp [ProcessFeedEntries, hp]
    · simp [ProcessFeedEntries, hp, ih]

/-- One iteration with remote enrichment disabled never panics. -/
theorem processEntry_no_panic_of_off (env : Env) (feed : Feed) (entry : Entry)
    (h : feed.UseMercury = false) : (processEntry env feed entry).panicked = false := by
  simp [processEntry, mercuryStage_off env feed _ h]

/-- The loop with remote enrichment disabled never panics and is a map over the entries. -/
theorem ProcessFeedEntries_of_off (env : Env) (feed : Feed) (entries : List Entry)
    (h : feed.UseMercury = false) :
    (ProcessFeedEntries env feed entries).panicked = false ∧
      (ProcessFeedEntries env feed entries).entries =
        entries.map fun e => (processEntry env feed e).entry := by
  induction entries with
  | nil => simp [ProcessFeedEntries]
  | cons e es ih =>
    have hp := processEntry_no_panic_of_off env feed e h
    simp [ProcessFeedEntries, hp, ih]

/-- One iteration that does not panic ends with rewrite followed by sanitize, applied to
the content the two fetch stages handed on. -/
theorem processEntry_sanitize_last (env : Env) (feed : Feed) (entry : Entry)
    (h : (processEntry env feed entry).panicked = false) :
    (processEntry env feed entry).entry.Content =
      env.Sanitize entry.URL (env.Rewriter entry.URL
        (mercuryStage env feed (crawlerStage env feed entry).entry).entry.Content
        feed.RewriteRules) := by
  unfold processEntry at h ⊢
  by_cases hp : (mercuryStage env feed (crawlerStage env feed entry).entry).panicked = true
  · simp [hp] at h
  · simp [hp, mercuryStage_URL, crawlerStage_URL]

/-- The content handed to rewrite by one iteration is the original content, the content
returned by the scraper, or the content returned by the remote fetcher. -/
theorem processEntry_content_origin (env : Env) (feed : Feed) (entry : Entry) :
    (mercuryStage env feed (crawlerStage env feed entry).entry).entry.Content = entry.Content ∨
    (mercuryStage env feed (crawlerStage env feed entry).entry).entry.Content =
      (env.scraperFetch entry.URL feed.ScraperRules feed.UserAgent).1 ∨
    ∃ user, (env.UserByID feed.UserID).1 = some user ∧
      (mercuryStage env feed (crawlerStage env feed entry).entry).entry.Content =
        (mercury.Fetch env entry.URL user.MercuryAPIURL).content := by
  have hc : (crawlerStage env feed entry).entry.Content = entry.Content ∨
      (crawlerStage env feed entry).entry.Content =
        (env.scraperFetch entry.URL feed.ScraperRules feed.UserAgent).1 := by
    unfold crawlerStage
    repeat' split
    all_goals simp_all
  have hu := crawlerStage_URL env feed entry
  generalize crawlerStage env feed entry = c at hc hu
  have hm : (mercuryStage env feed c.entry).entry.Content = c.entry.Content ∨
      ∃ user, (env.UserByID feed.UserID).1 = some user ∧
        (mercuryStage env feed c.entry).entry.Content =
          (mercury.Fetch env c.entry.URL user.MercuryAPIURL).content := by
    unfold mercuryStage
    dsimp only
    repeat' split
    all_goals simp_all
  rw [hu] at hm
  rcases hm with hm | hm
  · rcases hc with hc | hc
    · exact Or.inl (hm.trans hc)
    · exact Or.inr (Or.inl (hm.trans hc))
  · exact Or.inr (Or.inr hm)

/-- A failing scraper call leaves the entry as it was. -/
theorem crawlerStage_fetch_error (env : Env) (feed : Feed) (entry : Entry) (s : String)
    (err : GoError)
    (hfetch : env.scraperFetch entry.URL feed.ScraperRules feed.UserAgent = (s, some err)) :
    (crawlerStage env feed entry).entry = entry := by
  unfold crawlerStage
  repeat' split
  all_goals simp_all

/-- A failing remote fetch leaves the entry as it was and does not end the run. -/
theorem mercuryStage_fetch_error (env : Env) (feed : Feed) (entry : Entry) (user : User)
    (e err : GoError) (hlookup : env.UserByID feed.UserID = (some user, some e))
    (hfetch : (mercury.Fetch env entry.URL user.MercuryAPIURL).err = some err) :
    (mercuryStage env feed entry).entry = entry ∧
      (mercuryStage env feed entry).panicked = false := by
  unfold mercuryStage
  dsimp only
  repeat' split
  all_goals simp_all

/-- No error of `mercury.Fetch` carries a message that starts like the messages built by
`ProcessEntryWebPage`: the former start with `mercury: ` or `wallabag: `. -/
theorem mercury_Fetch_err_ne (env : Env) (entryURL mercury_api tail : String) :
    (mercury.Fetch env entryURL mercury_api).err ≠
      some ⟨"[Merucry] Unable to crawl this entry: " ++ tail⟩ := by
  unfold mercury.Fetch
  dsimp only
  split
  · intro h
    have h2 := congrArg (fun o => o.map fun e => e.msg.data.head?) h
    simp [String.data_append] at h2
  · split
    · intro h
      have h2 := congrArg (fun o => o.map fun e => e.msg.data.head?) h
      simp [String.data_append] at h2
    · simp

/-- The crawler stage changes at most the content of the entry. -/
theorem crawlerStage_entry (env : Env) (feed : Feed) (entry : Entry) :
    (crawlerStage env feed entry).entry =
      { entry with Content := (crawlerStage env feed entry).entry.Content } := by
  unfold crawlerStage
  repeat' split
  all_goals rfl

/-- The crawler stage issues no GET. -/
theorem crawlerStage_no_GET (env : Env) (feed : Feed) (entry : Entry) (target : String) :
    Event.clientGet target ∉ (crawlerStage env feed entry).trace := by
  unfold crawlerStage
  repeat' split
  all_goals simp

/-- Every call of `mercury.Fetch` issues one GET. -/
theorem mercury_Fetch_trace (env : Env) (entryURL mercury_api : String) :
    (mercury.Fetch env entryURL mercury_api).trace =
      [.clientGet (env.AddQueryString mercury_api [("url", entryURL)])] := by
  unfold mercury.Fetch
  dsimp only
  repeat' split
  all_goals rfl

/-- A GET in the trace of the remote stage: remote enrichment is enabled, the URL is not
stored, and the lookup returned a user with an endpoint together with an error. -/
theorem mercuryStage_invoked (env : Env) (feed : Feed) (entry : Entry) (target : String)
    (h : Event.clientGet target ∈ (mercuryStage env feed entry).trace) :
    ∃ user e, feed.UseMercury = true ∧ env.EntryURLExists feed.ID entry.URL = false ∧
      env.UserByID feed.UserID = (some user, some e) ∧ user.MercuryAPIURL ≠ "" ∧
      target = env.AddQueryString user.MercuryAPIURL [("url", entry.URL)] := by
  by_cases hon : feed.UseMercury = true
  · by_cases hex : env.EntryURLExists feed.ID entry.URL = false
    · rcases hl : env.UserByID feed.UserID with ⟨_ | user, _ | e⟩
      · simp [mercuryStage, hon, hex, hl] at h
      · simp [mercuryStage, hon, hex, hl] at h
      · simp [mercuryStage, hon, hex, hl] at h
      · by_cases hne : user.MercuryAPIURL = ""
        · simp [mercuryStage, hon, hex, hl, hne] at h
        · refine ⟨user, e, hon, hex, rfl, hne, ?_⟩
          have ht := mercury_Fetch_trace env entry.URL user.MercuryAPIURL
          unfold mercuryStage at h
          simp only [hon, hex, hl] at h
          simp only [if_true, hne, ne_eq, not_false_eq_true] at h
          split at h
          · simpa [ht] using h
          · split at h
            · simpa [ht] using h
            · simpa [ht] using h
    · simp [mercuryStage, hon, hex] at h
  · simp [mercuryStage, hon] at h

/-- The remote stage when the fetcher is invoked and succeeds with a non-empty content. -/
theorem mercuryStage_fetched (env : Env) (feed : Feed) (entry : Entry) (user : User)
    (e : GoError) (hon : feed.UseMercury = true)
    (hnew : env.EntryURLExists feed.ID entry.URL = false)
    (hlookup : env.UserByID feed.UserID = (some user, some e))
    (hendpoint : user.MercuryAPIURL ≠ "")
    (hok : (mercury.Fetch env entry.URL user.MercuryAPIURL).err = none)
    (hcontent : (mercury.Fetch env entry.URL user.MercuryAPIURL).content ≠ "") :
    mercuryStage env feed entry =
      ⟨[.EntryURLExists feed.ID entry.URL, .UserByID feed.UserID,
          .clientGet (env.AddQueryString user.MercuryAPIURL [("url", entry.URL)])],
        { entry with Content := (mercury.Fetch env entry.URL user.MercuryAPIURL).content },
        false⟩ := by
  have ht := mercury_Fetch_trace env entry.URL user.MercuryAPIURL
  unfold mercuryStage
  simp only [hon, hnew, hlookup]
  simp [hendpoint, hok, hcontent, ht]


/-- In a batch whose run reaches an entry, the entry of the result at that position is
the one its iteration leaves behind. -/
theorem ProcessFeedEntries_entry_at (env : Env) (feed : Feed) (pre post : List Entry)
    (entry : Entry) (hreach : (ProcessFeedEntries env feed pre).panicked = false) :
    (ProcessFeedEntries env feed (pre ++ entry :: post)).entries[pre.length]? =
      some (processEntry env feed entry).entry := by
  have hlen := ProcessFeedEntries_length env feed pre
  rw [ProcessFeedEntries_append env feed pre _ hreach]
  by_cases hp : (processEntry env feed entry).panicked = true
  · simp only [ProcessFeedEntries, hp]
    rw [List.getElem?_append_right (by omega)]
    simp [hlen]
  · simp only [ProcessFeedEntries, hp]
    rw [List.getElem?_append_right (by omega)]
    simp [hlen]

/-- The dedup gate within one iteration: when `EntryURLExists (feed.ID, entry.URL)`
holds, the iteration for that entry consists of the gate lookups only (one per enabled
strategy: no scraper call, no GET, no user lookup), does not panic, and ends with
`sanitize (rewrite original)`; in a batch whose run reaches the entry, that is the
content of the entry in the result, and the iteration is all the batch trace holds for
that entry. -/
theorem processEntry_dedup_gate (env : Env) (feed : Feed) (pre post : List Entry) (entry : Entry)
    (hgate : env.EntryURLExists feed.ID entry.URL = true) :
    processEntry env feed entry =
      ⟨(if feed.Crawler then [.EntryURLExists feed.ID entry.URL] else []) ++
        (if feed.UseMercury then [.EntryURLExists feed.ID entry.URL] else []),
        { entry with
          Content :=
            env.Sanitize entry.URL (env.Rewriter entry.URL entry.Content feed.RewriteRules) },
        false⟩ ∧
    ((ProcessFeedEntries env feed pre).panicked = false →
      (ProcessFeedEntries env feed (pre ++ entry :: post)).trace =
        (ProcessFeedEntries env feed pre).trace ++
          ((processEntry env feed entry).trace ++ (ProcessFeedEntries env feed post).trace) ∧
      (ProcessFeedEntries env feed (pre ++ entry :: post)).entries[pre.length]? =
        some { entry with
               Content :=
                 env.Sanitize entry.URL
                   (env.Rewriter entry.URL entry.Content feed.RewriteRules) }) := by
  have hbody : processEntry env feed entry =
      ⟨(if feed.Crawler then [.EntryURLExists feed.ID entry.URL] else []) ++
        (if feed.UseMercury then [.EntryURLExists feed.ID entry.URL] else []),
        { entry with
          Content :=
            env.Sanitize entry.URL (env.Rewriter entry.URL entry.Content feed.RewriteRules) },
        false⟩ := by
    unfold processEntry
    simp [crawlerStage_stored env feed entry hgate, mercuryStage_stored env feed entry hgate]
  have hlen := ProcessFeedEntries_length env feed pre
  refine ⟨hbody, fun hreach => ⟨?_, ?_⟩⟩
  · rw [ProcessFeedEntries_append env feed pre _ hreach]
    simp [ProcessFeedEntries, hbody]
  · rw [ProcessFeedEntries_append env feed pre _ hreach]
    simp only [ProcessFeedEntries, hbody]
    rw [List.getElem?_append_right (by omega)]
    simp [hlen]

/-- The dedup gate on a batch with both strategies enabled and every URL already stored. -/
theorem processEntry_dedup_gate_example :
    storedEnv.EntryURLExists bothFeed.ID entryScript.URL = true ∧
    processEntry storedEnv bothFeed entryScript =
      ⟨[.EntryURLExists 1 "http://site/s", .EntryURLExists 1 "http://site/s"],
        { entryScript with Content := "" }, false⟩ ∧
    (ProcessFeedEntries storedEnv bothFeed ([entryA] ++ entryScript :: [])).entries[1]? =
      some { entryScript with Content := "" } :=
  have h := processEntry_dedup_gate storedEnv bothFeed [entryA] [] entryScript (by decide)
  ⟨by decide, h.1, (h.2 (by decide)).2⟩

/-! ## Batch mode: `ProcessFeedEntries` -/

/-- C1 (the code departs from it): the claim says that every entry of a feed ends with
`sanitize (rewrite c)` as content whatever the storage lookups return.  On a feed with
remote enrichment enabled whose user lookup fails with a `nil` user, line 36 reads
`user.MercuryAPIURL` and the run panics: the entry keeps the script it had, which no
call of the sanitizer returns, and the next entry is not processed. -/
theorem C1_lookup_failure_skips_sanitize :
    ProcessFeedEntries lookupFailsEnv remoteFeed [entryScript, entryA] =
      ⟨[.EntryURLExists 1 "http://site/s", .UserByID 7], [entryScript, entryA], true⟩ ∧
    entryScript.Content = "<script>alert(1)</script>" ∧
    ∀ c, lookupFailsEnv.Sanitize entryScript.URL
      (lookupFailsEnv.Rewriter entryScript.URL c remoteFeed.RewriteRules)
        ≠ "<script>alert(1)</script>" := by
  refine ⟨by decide, by decide, ?_⟩
  intro c
  simp only [lookupFailsEnv, exampleEnv, scriptSanitize, plainRewriter]
  split
  · decide
  · assumption

/-- C2 (the code departs from it): on the example of the specification (crawler off,
remote enrichment on, URL not stored, lookup succeeding with endpoint
`http://api.example/parser`, remote content `<p>hi</p>`), the condition `err != nil` of
line 36 is false, so no GET is issued and the entry ends with the sanitized original
content `summary` instead of the sanitized `<p>hi</p>`. -/
theorem C2_successful_lookup_skips_remote_fetch :
    exampleEnv.EntryURLExists remoteFeed.ID entryA.URL = false ∧
    exampleEnv.UserByID remoteFeed.UserID = (some ⟨"http://api.example/parser"⟩, none) ∧
    mercury.Fetch exampleEnv entryA.URL "http://api.example/parser" =
      ⟨[.clientGet "http://api.example/parser?url=http://site/a"], "<p>hi</p>", none⟩ ∧
    exampleEnv.Sanitize entryA.URL
      (exampleEnv.Rewriter entryA.URL "<p>hi</p>" remoteFeed.RewriteRules) = "<p>hi</p>" ∧
    ProcessFeedEntries exampleEnv remoteFeed [entryA] =
      ⟨[.EntryURLExists 1 "http://site/a", .UserByID 7],
        [{ entryA with Content := "summary" }], false⟩ := by
  decide

/-- C4 (the code departs from it): with remote enrichment enabled and the URL not
stored, a failing user lookup does not skip the remote stage.  When the lookup returns
a `nil` user the run panics at line 36 and the later entry is left unprocessed, while
the same run with remote enrichment disabled sanitizes both entries; when the lookup
returns a user together with the error, the remote fetcher is invoked and its content
replaces the original one. -/
theorem C4_lookup_failure_is_not_skipped :
    ProcessFeedEntries lookupFailsEnv remoteFeed [entryA, entryScript] =
      ⟨[.EntryURLExists 1 "http://site/a", .UserByID 7], [entryA, entryScript], true⟩ ∧
    ProcessFeedEntries lookupFailsEnv plainFeed [entryA, entryScript] =
      ⟨[], [entryA, { entryScript with Content := "" }], false⟩ ∧
    ProcessFeedEntries lookupUserAndErrorEnv remoteFeed [entryA] =
      ⟨[.EntryURLExists 1 "http://site/a", .UserByID 7,
          .clientGet "http://api.example/parser?url=http://site/a"],
        [{ entryA with Content := "<p>hi</p>" }], false⟩ ∧
    ProcessFeedEntries lookupUserAndErrorEnv plainFeed [entryA] =
      ⟨[], [entryA], false⟩ := by
  decide

/-- C6 (the code departs from it): the claim says that an entry whose URL is already
stored ends with `sanitize (rewrite original)` in every batch.  With remote enrichment
enabled, the entry `http://site/a` before it is not stored and its user lookup fails
with a `nil` user: line 36 panics, the loop never reaches the stored entry
`http://site/s`, which keeps its script although the sanitizer maps it to the empty
string.  No fetch is made for it, as the claim says. -/
theorem C6_gated_entry_left_raw_after_panic :
    gatedLookupFailsEnv.EntryURLExists remoteFeed.ID entryScript.URL = true ∧
    ProcessFeedEntries gatedLookupFailsEnv remoteFeed [entryA, entryScript] =
      ⟨[.EntryURLExists 1 "http://site/a", .UserByID 7], [entryA, entryScript], true⟩ ∧
    entryScript.Content = "<script>alert(1)</script>" ∧
    gatedLookupFailsEnv.Sanitize entryScript.URL
      (gatedLookupFailsEnv.Rewriter entryScript.URL entryScript.Content
        remoteFeed.RewriteRules) = "" ∧
    ProcessFeedEntries gatedLookupFailsEnv remoteFeed [entryScript] =
      ⟨[.EntryURLExists 1 "http://site/s"], [{ entryScript with Content := "" }], false⟩ := by
  decide

/-- C7: with the crawler and remote enrichment both disabled, the batch makes no call
at all (no fetch, no storage lookup, no log line), does not panic, and every entry ends
with `sanitize (rewrite original)` as content. -/
theorem C7_no_strategy (env : Env) (feed : Feed) (entries : List Entry)
    (hc : feed.Crawler = false) (hm : feed.UseMercury = false) :
    ProcessFeedEntries env feed entries =
      ⟨[],
        entries.map fun e =>
          { e with
            Content := env.Sanitize e.URL (env.Rewriter e.URL e.Content feed.RewriteRules) },
        false⟩ := by
  have hbody : ∀ e, processEntry env feed e =
      ⟨[],
        { e with
          Content := env.Sanitize e.URL (env.Rewriter e.URL e.Content feed.RewriteRules) },
        false⟩ := by
    intro e
    unfold processEntry
    simp [crawlerStage_off env feed e hc, mercuryStage_off env feed e hm]
  induction entries with
  | nil => simp [ProcessFeedEntries]
  | cons e es ih => simp [ProcessFeedEntries, hbody, ih]

/-- Witness for C7: a feed without strategy, holding a plain entry and a script. -/
theorem C7_no_strategy_witness :
    plainFeed.Crawler = false ∧ plainFeed.UseMercury = false ∧
    ProcessFeedEntries exampleEnv plainFeed [entryA, entryScript] =
      ⟨[], [entryA, { entryScript with Content := "" }], false⟩ :=
  ⟨by decide, by decide,
    C7_no_strategy exampleEnv plainFeed [entryA, entryScript] (by decide) (by decide)⟩

/-- C8: with the crawler enabled and remote enrichment disabled, for an entry whose URL
is not stored and a scraper call (on `entry.URL`, `feed.ScraperRules`, `feed.UserAgent`)
that succeeds with content `s`, the content handed to rewrite is `s` when `s` is not
empty and the original content when `s` is empty; the entry ends with sanitize of
rewrite of it, in the iteration and in the result of any batch holding the entry. -/
theorem C8_local_scraper_result (env : Env) (feed : Feed) (pre post : List Entry)
    (entry : Entry) (s : String)
    (hc : feed.Crawler = true) (hm : feed.UseMercury = false)
    (hnew : env.EntryURLExists feed.ID entry.URL = false)
    (hfetch : env.scraperFetch entry.URL feed.ScraperRules feed.UserAgent = (s, none)) :
    (crawlerStage env feed entry).entry.Content = (if s = "" then entry.Content else s) ∧
    processEntry env feed entry =
      ⟨[.EntryURLExists feed.ID entry.URL,
          .scraperFetch entry.URL feed.ScraperRules feed.UserAgent],
        { entry with
          Content :=
            env.Sanitize entry.URL
              (env.Rewriter entry.URL (if s = "" then entry.Content else s)
                feed.RewriteRules) },
        false⟩ ∧
    (ProcessFeedEntries env feed (pre ++ entry :: post)).panicked = false ∧
    (ProcessFeedEntries env feed (pre ++ entry :: post)).entries[pre.length]? =
      some { entry with
             Content :=
               env.Sanitize entry.URL
                 (env.Rewriter entry.URL (if s = "" then entry.Content else s)
                   feed.RewriteRules) } := by
  have hstage : crawlerStage env feed entry =
      ⟨[.EntryURLExists feed.ID entry.URL,
          .scraperFetch entry.URL feed.ScraperRules feed.UserAgent],
        { entry with Content := if s = "" then entry.Content else s }, false⟩ := by
    unfold crawlerStage
    simp only [hc, hnew, hfetch]
    by_cases hs : s = ""
    · simp [hs]
    · simp [hs]
  have hbody : processEntry env feed entry =
      ⟨[.EntryURLExists feed.ID entry.URL,
          .scraperFetch entry.URL feed.ScraperRules feed.UserAgent],
        { entry with
          Content :=
            env.Sanitize entry.URL
              (env.Rewriter entry.URL (if s = "" then entry.Content else s)
                feed.RewriteRules) },
        false⟩ := by
    unfold processEntry
    simp [hstage, mercuryStage_off env feed _ hm]
  have hpre := (ProcessFeedEntries_of_off env feed pre hm).1
  have hlen := ProcessFeedEntries_length env feed pre
  refine ⟨by rw [hstage], hbody, (ProcessFeedEntries_of_off env feed _ hm).1, ?_⟩
  rw [ProcessFeedEntries_append env feed pre _ hpre]
  simp only [ProcessFeedEntries, hbody]
  rw [List.getElem?_append_right (by omega)]
  simp [hlen]

/-- Witness for C8: the scraper extracts `<p>full</p>` for the second entry of a batch. -/
theorem C8_local_scraper_result_witness :
    crawlerFeed.Crawler = true ∧ crawlerFeed.UseMercury = false ∧
    scraperFullEnv.EntryURLExists crawlerFeed.ID entryC.URL = false ∧
    scraperFullEnv.scraperFetch entryC.URL crawlerFeed.ScraperRules crawlerFeed.UserAgent =
      ("<p>full</p>", none) ∧
    processEntry scraperFullEnv crawlerFeed entryC =
      ⟨[.EntryURLExists 1 "http://site/a", .scraperFetch "http://site/a" "" ""],
        { entryC with Content := "<p>full</p>" }, false⟩ ∧
    (ProcessFeedEntries scraperFullEnv crawlerFeed ([entryB] ++ entryC :: [])).entries[1]? =
      some { entryC with Content := "<p>full</p>" } :=
  have h := C8_local_scraper_result scraperFullEnv crawlerFeed [entryB] [] entryC "<p>full</p>"
    (by decide) (by decide) (by decide) (by decide)
  ⟨by decide, by decide, by decide, by decide, h.2.1, h.2.2.2⟩

/-- C9 (the code departs from it): both strategies enabled, entry `http://site/a` not
stored, the scraper call fails and is logged; the user lookup that follows fails with a
`nil` user and line 36 panics.  Rewrite and sanitize are not applied to that entry and
the later entry `http://site/s` is left unprocessed, whereas the batch without the
failing entry sanitizes it. -/
theorem C9_fetch_failure_then_panic :
    ProcessFeedEntries scraperAndLookupFailEnv bothFeed [entryA, entryScript] =
      ⟨[.EntryURLExists 1 "http://site/a", .scraperFetch "http://site/a" "" "",
          .loggerError
            "[Filter] Unable to crawl this entry: \"http://site/a\" => scraper: timeout",
          .EntryURLExists 1 "http://site/a", .UserByID 7],
        [entryA, entryScript], true⟩ ∧
    ProcessFeedEntries scraperAndLookupFailEnv bothFeed [entryScript] =
      ⟨[.EntryURLExists 1 "http://site/s", .EntryURLExists 1 "http://site/s"],
        [{ entryScript with Content := "" }], false⟩ := by
  decide

/-- C15: when the iteration for an entry issues a GET, that GET is the call of the
remote fetcher on `entry.URL` and the endpoint of the user returned by the lookup, and it
comes after everything the crawler stage did; when that call returns a non-empty content
`r` without error, the iteration does not panic and the entry ends with
`sanitize (rewrite r)`, whatever the crawler flag is and whatever the scraper returned,
also as entry of the result of a batch whose run reaches it. -/
theorem C15_remote_overrides_scraper (env : Env) (feed : Feed) (entry : Entry)
    (target : String)
    (hinvoked : Event.clientGet target ∈ (processEntry env feed entry).trace) :
    ∃ user, (env.UserByID feed.UserID).1 = some user ∧
      target = env.AddQueryString user.MercuryAPIURL [("url", entry.URL)] ∧
      (processEntry env feed entry).trace.take (crawlerStage env feed entry).trace.length =
        (crawlerStage env feed entry).trace ∧
      ((mercury.Fetch env entry.URL user.MercuryAPIURL).err = none →
        (mercury.Fetch env entry.URL user.MercuryAPIURL).content ≠ "" →
        processEntry env feed entry =
          ⟨(crawlerStage env feed entry).trace ++
              [.EntryURLExists feed.ID entry.URL, .UserByID feed.UserID, .clientGet target],
            { entry with
              Content :=
                env.Sanitize entry.URL
                  (env.Rewriter entry.URL
                    (mercury.Fetch env entry.URL user.MercuryAPIURL).content
                    feed.RewriteRules) },
            false⟩ ∧
        ∀ pre post, (ProcessFeedEntries env feed pre).panicked = false →
          (ProcessFeedEntries env feed (pre ++ entry :: post)).entries[pre.length]? =
            some { entry with
                   Content :=
                     env.Sanitize entry.URL
                       (env.Rewriter entry.URL
                         (mercury.Fetch env entry.URL user.MercuryAPIURL).content
                         feed.RewriteRules) }) := by
  have hat := fun pre post => ProcessFeedEntries_entry_at env feed pre post entry
  have hURL := crawlerStage_URL env feed entry
  have hentry := crawlerStage_entry env feed entry
  have hGET := crawlerStage_no_GET env feed entry target
  unfold processEntry at hinvoked hat ⊢
  generalize crawlerStage env feed entry = c at hURL hentry hGET hinvoked hat ⊢
  have hmem : Event.clientGet target ∈ (mercuryStage env feed c.entry).trace := by
    by_cases hp : (mercuryStage env feed c.entry).panicked = true
    · simp [hp, hGET] at hinvoked
      exact hinvoked
    · simp [hp, hGET] at hinvoked
      exact hinvoked
  clear hinvoked
  obtain ⟨user, e, hon, hnew, hlookup, hendpoint, htarget⟩ :=
    mercuryStage_invoked env feed c.entry target hmem
  rw [hURL] at htarget
  refine ⟨user, by rw [hlookup], htarget, ?_, ?_⟩
  · by_cases hp : (mercuryStage env feed c.entry).panicked = true
    · simp [hp]
    · simp [hp]
  · intro hok hcontent
    rw [← hURL] at hok hcontent
    have hstage := mercuryStage_fetched env feed c.entry user e hon hnew hlookup hendpoint
      hok hcontent
    have hUserID : c.entry.UserID = entry.UserID := by rw [hentry]
    have hFeed : c.entry.Feed = entry.Feed := by rw [hentry]
    dsimp only at hat ⊢
    rw [hstage] at hat ⊢
    simp only [Bool.false_eq_true, if_false] at hat ⊢
    simp only [hURL, hUserID, hFeed, ← htarget] at hat ⊢
    exact ⟨trivial, fun pre post hreach => hat pre post hreach⟩

/-- Witness for C15: both strategies enabled, the scraper extracts `<p>full</p>`, the
lookup returns a user with an endpoint together with an error, the remote API answers
`<p>hi</p>`, which is the content the entry ends with. -/
theorem C15_remote_overrides_scraper_witness :
    overrideEnv.scraperFetch entryA.URL bothFeed.ScraperRules bothFeed.UserAgent =
      ("<p>full</p>", none) ∧
    processEntry overrideEnv bothFeed entryA =
      ⟨[.EntryURLExists 1 "http://site/a", .scraperFetch "http://site/a" "" "",
          .EntryURLExists 1 "http://site/a", .UserByID 7,
          .clientGet "http://api.example/parser?url=http://site/a"],
        { entryA with Content := "<p>hi</p>" }, false⟩ := by
  refine ⟨rfl, ?_⟩
  obtain ⟨user, huser, -, -, hrun⟩ := C15_remote_overrides_scraper overrideEnv bothFeed entryA
    "http://api.example/parser?url=http://site/a" (by decide)
  have hu : user = ⟨"http://api.example/parser"⟩ := by
    have h : (overrideEnv.UserByID bothFeed.UserID).1 = some ⟨"http://api.example/parser"⟩ :=
      rfl
    rw [h] at huser
    exact (Option.some.inj huser).symm
  subst hu
  exact (hrun rfl (by decide)).1

/-! ## On-demand mode: `ProcessEntryWebPage` -/

/-- C3 (the code departs from it): in the remote branch of `ProcessEntryWebPage` the
fetched content is stored as it is.  With a remote API answering a script, the entry
ends with the script although the sanitizer maps it to the empty string; with a remote
API answering no content, the prior content (a script) stays as it is, neither
rewritten nor sanitized. -/
theorem C3_remote_branch_stores_raw_content :
    ProcessEntryWebPage remoteScriptEnv entryA =
      ⟨[.UserByID 7, .clientGet "http://api.example/parser?url=http://site/a"],
        { entryA with Content := "<script>alert(1)</script>" }, .returned none⟩ ∧
    remoteScriptEnv.Sanitize entryA.URL (remoteScriptEnv.Rewriter entryA.URL
      "<script>alert(1)</script>" entryA.Feed.RewriteRules) = "" ∧
    ProcessEntryWebPage remoteEmptyEnv entryScript =
      ⟨[.UserByID 7, .clientGet "http://api.example/parser?url=http://site/s"],
        entryScript, .returned none⟩ ∧
    remoteEmptyEnv.Sanitize entryScript.URL (remoteEmptyEnv.Rewriter entryScript.URL
      entryScript.Content entryScript.Feed.RewriteRules) = "" := by
  decide

/-- C5 (counterexample): the scraper succeeds with a non-empty content that the
sanitizer maps to the empty string; the call returns no error and the entry keeps its
prior content `summary`, which is not `sanitize (rewrite s)`. -/
theorem C5_counterexample_sanitized_to_empty :
    entryC.Feed.UseMercury = false ∧
    scraperScriptEnv.scraperFetch entryC.URL entryC.Feed.ScraperRules entryC.Feed.UserAgent =
      ("<script>alert(1)</script>", none) ∧
    (ProcessEntryWebPage scraperScriptEnv entryC).outcome = .returned none ∧
    (ProcessEntryWebPage scraperScriptEnv entryC).entry.Content = "summary" ∧
    (ProcessEntryWebPage scraperScriptEnv entryC).entry.Content ≠
      scraperScriptEnv.Sanitize entryC.URL (scraperScriptEnv.Rewriter entryC.URL
        "<script>alert(1)</script>" entryC.Feed.RewriteRules) := by
  decide

/-- C5 (amended): in the scraper branch of `ProcessEntryWebPage`, when the scraper
succeeds with content `s`, the call issues that one scraper call, returns no error, and
with `t = sanitize (rewrite s)` the entry ends with `t` as content when `t` is not
empty and with its prior content, untouched, when `t` is empty. -/
theorem C5_scraper_branch (env : Env) (entry : Entry) (s : String)
    (hoff : entry.Feed.UseMercury = false)
    (hfetch : env.scraperFetch entry.URL entry.Feed.ScraperRules entry.Feed.UserAgent
      = (s, none)) :
    ProcessEntryWebPage env entry =
      ⟨[.scraperFetch entry.URL entry.Feed.ScraperRules entry.Feed.UserAgent],
        { entry with Content :=
          if env.Sanitize entry.URL (env.Rewriter entry.URL s entry.Feed.RewriteRules) = ""
          then entry.Content
          else env.Sanitize entry.URL (env.Rewriter entry.URL s entry.Feed.RewriteRules) },
        .returned none⟩ := by
  unfold ProcessEntryWebPage
  simp only [hoff, hfetch]
  by_cases ht : env.Sanitize entry.URL (env.Rewriter entry.URL s entry.Feed.RewriteRules) = ""
  · simp [ht]
  · simp [ht]

/-- Witness for C5: the scraper extracts `<p>full</p>`, which replaces `summary`. -/
theorem C5_scraper_branch_witness :
    entryC.Feed.UseMercury = false ∧
    scraperFullEnv.scraperFetch entryC.URL entryC.Feed.ScraperRules entryC.Feed.UserAgent =
      ("<p>full</p>", none) ∧
    ProcessEntryWebPage scraperFullEnv entryC =
      ⟨[.scraperFetch "http://site/a" "" ""], { entryC with Content := "<p>full</p>" },
        .returned none⟩ :=
  ⟨by decide, by decide,
    C5_scraper_branch scraperFullEnv entryC "<p>full</p>" (by decide) (by decide)⟩

/-- C10: with remote enrichment enabled and a user lookup that succeeds with an empty
endpoint, `ProcessEntryWebPage` makes the user lookup and no other call (no GET, no
scraper call), leaves the entry as it was, and returns the error whose message is
`[Merucry] Unable to crawl this entry: <quoted URL> => API URL NOT SET`; no call of
`mercury.Fetch`, whatever its collaborators and arguments, returns that error. -/
theorem C10_missing_endpoint (env : Env) (entry : Entry) (user : User)
    (hon : entry.Feed.UseMercury = true)
    (hlookup : env.UserByID entry.UserID = (some user, none))
    (hempty : user.MercuryAPIURL = "") :
    ProcessEntryWebPage env entry =
      ⟨[.UserByID entry.UserID], entry,
        .returned (some ⟨"[Merucry] Unable to crawl this entry: " ++ env.quote entry.URL
          ++ " => " ++ "API URL NOT SET"⟩)⟩ ∧
    ∀ (env2 : Env) (entryURL mercury_api : String),
      (mercury.Fetch env2 entryURL mercury_api).err ≠
        some ⟨"[Merucry] Unable to crawl this entry: " ++ env.quote entry.URL
          ++ " => " ++ "API URL NOT SET"⟩ := by
  constructor
  · unfold ProcessEntryWebPage
    simp [hon, hlookup, hempty]
  · intro env2 entryURL mercury_api
    have h := mercury_Fetch_err_ne env2 entryURL mercury_api
      (env.quote entry.URL ++ " => " ++ "API URL NOT SET")
    simpa [String.append_assoc] using h

/-- Witness for C10: the user of entry `http://site/a` has no endpoint. -/
theorem C10_missing_endpoint_witness :
    entryA.Feed.UseMercury = true ∧
    noEndpointEnv.UserByID entryA.UserID = (some ⟨""⟩, none) ∧
    ProcessEntryWebPage noEndpointEnv entryA =
      ⟨[.UserByID 7], entryA,
        .returned (some
          ⟨"[Merucry] Unable to crawl this entry: \"http://site/a\" => API URL NOT SET"⟩)⟩ :=
  ⟨by decide, by decide,
    (C10_missing_endpoint noEndpointEnv entryA ⟨""⟩ (by decide) (by decide) (by decide)).1⟩

/-- C11: when the selected strategy is invoked and fails with error `e` (the remote
fetcher under remote enrichment, after a successful lookup of a user with an endpoint;
the scraper otherwise), `ProcessEntryWebPage` returns `e` itself and leaves the entry as
it was; the run is the same whatever the rewriter and the sanitizer are, so neither
takes part in it. -/
theorem C11_fetch_error_propagation (env : Env) (entry : Entry) (e : GoError) :
    (∀ user, entry.Feed.UseMercury = true →
      env.UserByID entry.UserID = (some user, none) → user.MercuryAPIURL ≠ "" →
      (mercury.Fetch env entry.URL user.MercuryAPIURL).err = some e →
      ∀ rewriter sanitize,
        ProcessEntryWebPage { env with Rewriter := rewriter, Sanitize := sanitize } entry =
          ⟨[.UserByID entry.UserID,
              .clientGet (env.AddQueryString user.MercuryAPIURL [("url", entry.URL)])],
            entry, .returned (some e)⟩) ∧
    (∀ s, entry.Feed.UseMercury = false →
      env.scraperFetch entry.URL entry.Feed.ScraperRules entry.Feed.UserAgent = (s, some e) →
      ∀ rewriter sanitize,
        ProcessEntryWebPage { env with Rewriter := rewriter, Sanitize := sanitize } entry =
          ⟨[.scraperFetch entry.URL entry.Feed.ScraperRules entry.Feed.UserAgent],
            entry, .returned (some e)⟩) := by
  constructor
  · intro user hon hlookup hendpoint hfetch rewriter sanitize
    have ht := mercury_Fetch_trace env entry.URL user.MercuryAPIURL
    have hsame : mercury.Fetch { env with Rewriter := rewriter, Sanitize := sanitize }
        entry.URL user.MercuryAPIURL = mercury.Fetch env entry.URL user.MercuryAPIURL := rfl
    unfold ProcessEntryWebPage
    simp only [hon, hlookup]
    simp [hendpoint, hsame, hfetch, ht]
  · intro s hoff hfetch rewriter sanitize
    unfold ProcessEntryWebPage
    simp [hoff, hfetch]

/-- Witness for C11: a refused connection under remote enrichment, a scraper timeout
otherwise. -/
theorem C11_fetch_error_propagation_witness :
    ProcessEntryWebPage getFailsEnv entryA =
      ⟨[.UserByID 7, .clientGet "http://api.example/parser?url=http://site/a"], entryA,
        .returned (some
          ⟨"mercury: unable to fetch http://site/a error: connection refused"⟩)⟩ ∧
    ProcessEntryWebPage scraperFailsEnv entryC =
      ⟨[.scraperFetch "http://site/a" "" ""], entryC,
        .returned (some ⟨"scraper: timeout"⟩)⟩ :=
  ⟨(C11_fetch_error_propagation getFailsEnv entryA
      ⟨"mercury: unable to fetch http://site/a error: connection refused"⟩).1
      ⟨"http://api.example/parser"⟩ rfl rfl (by decide) rfl plainRewriter scriptSanitize,
    (C11_fetch_error_propagation scraperFailsEnv entryC ⟨"scraper: timeout"⟩).2
      "" rfl rfl plainRewriter scriptSanitize⟩

/-- C12: with remote enrichment enabled and a user lookup that returns an error,
`ProcessEntryWebPage` makes the user lookup and no other call (no GET, no scraper call),
leaves the entry as it was, and returns the error whose message is
`[Merucry] Unable to crawl this entry: <quoted URL> => <message of the lookup error>`. -/
theorem C12_lookup_failure (env : Env) (entry : Entry) (user : Option User) (err : GoError)
    (hon : entry.Feed.UseMercury = true)
    (hlookup : env.UserByID entry.UserID = (user, some err)) :
    ProcessEntryWebPage env entry =
      ⟨[.UserByID entry.UserID], entry,
        .returned (some ⟨"[Merucry] Unable to crawl this entry: " ++ env.quote entry.URL
          ++ " => " ++ err.msg⟩)⟩ := by
  unfold ProcessEntryWebPage
  simp [hon, hlookup]

/-- Witness for C12: the lookup of the user of entry `http://site/a` fails. -/
theorem C12_lookup_failure_witness :
    entryA.Feed.UseMercury = true ∧
    lookupFailsEnv.UserByID entryA.UserID = (none, some ⟨"unable to fetch user"⟩) ∧
    ProcessEntryWebPage lookupFailsEnv entryA =
      ⟨[.UserByID 7], entryA,
        .returned (some
          ⟨"[Merucry] Unable to crawl this entry: \"http://site/a\" => unable to fetch user"⟩)⟩ :=
  ⟨rfl, rfl, C12_lookup_failure lookupFailsEnv entryA none ⟨"unable to fetch user"⟩ rfl rfl⟩

/-- C16: whatever the collaborators do, `ProcessEntryWebPage` changes at most the
content of the entry; when it returns an error (or panics) the entry is as it was; a
content that was not empty is not empty afterwards; and a content that changed is not
empty, so the empty string is never assigned. -/
theorem C16_atomic_and_non_empty (env : Env) (entry : Entry) :
    (ProcessEntryWebPage env entry).entry =
      { entry with Content := (ProcessEntryWebPage env entry).entry.Content } ∧
    (∀ e, (ProcessEntryWebPage env entry).outcome = .returned (some e) →
      (ProcessEntryWebPage env entry).entry = entry) ∧
    ((ProcessEntryWebPage env entry).outcome = .panicked →
      (ProcessEntryWebPage env entry).entry = entry) ∧
    (entry.Content ≠ "" → (ProcessEntryWebPage env entry).entry.Content ≠ "") ∧
    ((ProcessEntryWebPage env entry).entry.Content ≠ entry.Content →
      (ProcessEntryWebPage env entry).entry.Content ≠ "") := by
  unfold ProcessEntryWebPage
  dsimp only
  repeat' split
  all_goals simp_all

/-- Witness for C16: a refused connection leaves entry `http://site/a` as it was; a
scraped script, sanitized to the empty string, leaves the content `summary`. -/
theorem C16_atomic_and_non_empty_witness :
    (ProcessEntryWebPage getFailsEnv entryA).entry = entryA ∧
    (ProcessEntryWebPage scraperScriptEnv entryC).entry.Content ≠ "" :=
  ⟨(C16_atomic_and_non_empty getFailsEnv entryA).2.1
      ⟨"mercury: unable to fetch http://site/a error: connection refused"⟩ rfl,
    (C16_atomic_and_non_empty scraperScriptEnv entryC).2.2.2.1 (by decide)⟩

/-! ## Remote fetcher: `mercury.Fetch` -/

/-- C13: when the GET succeeds and the body decodes into `apiResp`, `Fetch` issues that
one GET and returns `apiResp.Content` with a `nil` error; the result is the same
whatever the decoder puts in `Title`, `Author`, `PubDate` and `URL` (the empty string of
an absent field included), and an empty `Content` gives the empty string with a `nil`
error. -/
theorem C13_fetch_success (env : Env) (entryURL mercury_api body : String)
    (apiResp : apiResponse)
    (hget : env.clientGet (env.AddQueryString mercury_api [("url", entryURL)]) = .ok body)
    (hdecode : env.jsonDecode body = .ok apiResp) :
    mercury.Fetch env entryURL mercury_api =
      ⟨[.clientGet (env.AddQueryString mercury_api [("url", entryURL)])],
        apiResp.Content, none⟩ ∧
    (∀ title author pubDate url : String,
      mercury.Fetch
        { env with jsonDecode := fun _ => .ok ⟨title, author, pubDate, apiResp.Content, url⟩ }
        entryURL mercury_api = mercury.Fetch env entryURL mercury_api) ∧
    (apiResp.Content = "" →
      (mercury.Fetch env entryURL mercury_api).content = "" ∧
        (mercury.Fetch env entryURL mercury_api).err = none) := by
  have hrun : mercury.Fetch env entryURL mercury_api =
      ⟨[.clientGet (env.AddQueryString mercury_api [("url", entryURL)])],
        apiResp.Content, none⟩ := by
    unfold mercury.Fetch
    simp [hget, hdecode]
  refine ⟨hrun, ?_, ?_⟩
  · intro title author pubDate url
    rw [hrun]
    unfold mercury.Fetch
    simp [hget]
  · intro hempty
    rw [hrun]
    exact ⟨hempty, rfl⟩

/-- Witness for C13: the remote API of `exampleEnv` answers `<p>hi</p>`; the remote API
of `remoteEmptyEnv` answers a title and an author and no content. -/
theorem C13_fetch_success_witness :
    mercury.Fetch exampleEnv "http://site/a" "http://api.example/parser" =
      ⟨[.clientGet "http://api.example/parser?url=http://site/a"], "<p>hi</p>", none⟩ ∧
    (mercury.Fetch remoteEmptyEnv "http://site/a" "http://api.example/parser").content = "" ∧
    (mercury.Fetch remoteEmptyEnv "http://site/a" "http://api.example/parser").err = none :=
  ⟨(C13_fetch_success exampleEnv "http://site/a" "http://api.example/parser" "body"
      ⟨"", "", "", "<p>hi</p>", ""⟩ rfl rfl).1,
    (C13_fetch_success remoteEmptyEnv "http://site/a" "http://api.example/parser" "body"
      ⟨"t", "a", "", "", ""⟩ rfl rfl).2.2 rfl⟩

/-- C14: every call of `Fetch` issues exactly one GET, on the endpoint extended with the
entry URL as parameter `url`; when the GET fails, or when the body does not decode,
`Fetch` returns the empty string together with an error whose message holds the message
of the failure; `Fetch` never returns a non-empty content together with an error. -/
theorem C14_fetch_failure (env : Env) (entryURL mercury_api : String) :
    (mercury.Fetch env entryURL mercury_api).trace =
      [.clientGet (env.AddQueryString mercury_api [("url", entryURL)])] ∧
    (∀ err, env.clientGet (env.AddQueryString mercury_api [("url", entryURL)]) = .error err →
      (mercury.Fetch env entryURL mercury_api).content = "" ∧
      (mercury.Fetch env entryURL mercury_api).err =
        some ⟨"mercury: unable to fetch " ++ entryURL ++ " error: " ++ err.msg⟩) ∧
    (∀ body err,
      env.clientGet (env.AddQueryString mercury_api [("url", entryURL)]) = .ok body →
      env.jsonDecode body = .error err →
      (mercury.Fetch env entryURL mercury_api).content = "" ∧
      (mercury.Fetch env entryURL mercury_api).err =
        some ⟨"wallabag: unable to decode token response: " ++ err.msg⟩) ∧
    ((mercury.Fetch env entryURL mercury_api).err ≠ none →
      (mercury.Fetch env entryURL mercury_api).content = "") := by
  refine ⟨?_, ?_, ?_, ?_⟩
  · unfold mercury.Fetch
    dsimp only
    repeat' split
    all_goals rfl
  · intro err hget
    unfold mercury.Fetch
    simp [hget]
  · intro body err hget hdecode
    unfold mercury.Fetch
    simp [hget, hdecode]
  · unfold mercury.Fetch
    dsimp only
    repeat' split
    all_goals simp

/-- Witness for C14: a refused connection, and a body that does not decode. -/
theorem C14_fetch_failure_witness :
    ((mercury.Fetch getFailsEnv "http://site/a" "http://api.example/parser").trace =
        [.clientGet "http://api.example/parser?url=http://site/a"] ∧
      (mercury.Fetch getFailsEnv "http://site/a" "http://api.example/parser").content = "" ∧
      (mercury.Fetch getFailsEnv "http://site/a" "http://api.example/parser").err =
        some ⟨"mercury: unable to fetch http://site/a error: connection refused"⟩) ∧
    ((mercury.Fetch decodeFailsEnv "http://site/a" "http://api.example/parser").trace =
        [.clientGet "http://api.example/parser?url=http://site/a"] ∧
      (mercury.Fetch decodeFailsEnv "http://site/a" "http://api.example/parser").content = "" ∧
      (mercury.Fetch decodeFailsEnv "http://site/a" "http://api.example/parser").err =
        some ⟨"wallabag: unable to decode token response: unexpected EOF"⟩) :=
  have hget := C14_fetch_failure getFailsEnv "http://site/a" "http://api.example/parser"
  have hdecode := C14_fetch_failure decodeFailsEnv "http://site/a" "http://api.example/parser"
  ⟨⟨hget.1, hget.2.1 ⟨"connection refused"⟩ rfl⟩,
    ⟨hdecode.1, hdecode.2.2.1 "body" ⟨"unexpected EOF"⟩ rfl rfl⟩⟩

end Miniflux
